import Mathlib

/-!
Verification of the Smart-Home-Automation-System repository's rule-coordination
core against its specification.  The definitions below are a shallow embedding
of the Python source (`src/energy-management/energy_system.py` and
`src/security/security_system.py`): dictionaries become functions into
`Option`, Python floats become exact rationals (at every concrete input used
here the comparisons agree with IEEE-754 evaluation of the source's literals
`0.8` and `0.7`), `datetime` values become seconds counted as naturals
(time-of-day is `now % 86400`), and MQTT publishes become values appended to a
result list.
-/

namespace EnergySystem

/-- Embedding of one inbound energy reading, as decoded by
`process_energy_reading` (energy_system.py lines 312-353): the payload fields
`device_id`, `timestamp`, `power_consumption`, `voltage`, `current`. -/
structure Reading where
  deviceId : String
  timestamp : Nat
  power : ℚ
  voltage : ℚ
  current : ℚ
  deriving DecidableEq, Repr

/-- The per-device snapshot value stored in `self.current_readings[device_id]`
(energy_system.py lines 330-336). -/
structure ReadingVal where
  timestamp : Nat
  power : ℚ
  voltage : ℚ
  current : ℚ
  deriving DecidableEq, Repr

/-- The snapshot value built from a reading, exactly the dictionary stored at
energy_system.py lines 331-336. -/
def readingVal (r : Reading) : ReadingVal :=
  ⟨r.timestamp, r.power, r.voltage, r.current⟩

/-- Embedding of the snapshot update performed by `process_energy_reading`
(energy_system.py lines 330-336): `self.current_readings[device_id] = ...`
overwrites the stored value unconditionally — the source performs no
comparison with the previously stored timestamp. -/
def process_energy_reading (snap : String → Option ReadingVal) (r : Reading) :
    String → Option ReadingVal :=
  fun d => if d = r.deviceId then some (readingVal r) else snap d

/-- The empty `current_readings` dictionary (energy_system.py line 43). -/
def emptyReadings : String → Option ReadingVal := fun _ => none

/-- Delivering a sequence of readings to the state store in arrival order. -/
def buildSnapshot (rs : List Reading) : String → Option ReadingVal :=
  rs.foldl process_energy_reading emptyReadings

/-- Stable insertion into a list sorted by ascending timestamp. -/
def insertByTimestamp (r : Reading) : List Reading → List Reading
  | [] => [r]
  | x :: xs =>
    if r.timestamp ≤ x.timestamp then r :: x :: xs
    else x :: insertByTimestamp r xs

/-- Stable sort of readings by ascending timestamp (the spec side of claim C1:
the snapshot built from the same readings sorted by timestamp). -/
def sortByTimestamp : List Reading → List Reading
  | [] => []
  | x :: xs => insertByTimestamp x (sortByTimestamp xs)

/-- The reading for device `d` that arrived last, scanning in arrival order. -/
def lastArrival (rs : List Reading) (d : String) : Option Reading :=
  rs.foldl (fun acc r => if r.deviceId = d then some r else acc) none

/-- Embedding of `is_peak_hour` (energy_system.py lines 895-903): any
configured peak window `(start, end)` with `start <= t <= end`, both bounds
inclusive.  Times of day are seconds since midnight. -/
def is_peak_hour (peakWindows : List (Nat × Nat)) (t : Nat) : Bool :=
  peakWindows.any (fun w => decide (w.1 ≤ t) && decide (t ≤ w.2))

/-- Embedding of `is_off_peak_hour` (energy_system.py lines 905-913): for
every configured off-peak window the source tests `start <= t or t <= end`,
unconditionally — the midnight-crossing disjunction is applied whether or not
`start > end`. -/
def is_off_peak_hour (offPeakWindows : List (Nat × Nat)) (t : Nat) : Bool :=
  offPeakWindows.any (fun w => decide (w.1 ≤ t) || decide (t ≤ w.2))

/-- Specification-side off-peak classification, following claim C4's words:
when `start <= end` the window is the inclusive range `[start, end]`; when
`start > end` (midnight crossing) it is the two inclusive sub-ranges
`t >= start` or `t <= end`. -/
def offPeakSpec (w : Nat × Nat) (t : Nat) : Bool :=
  if w.1 ≤ w.2 then decide (w.1 ≤ t) && decide (t ≤ w.2)
  else decide (w.1 ≤ t) || decide (t ≤ w.2)

/-- A configured device (energy_system.py lines 74-91): id, power rating in
watts, room, priority (higher = less essential), and the always-on flag. -/
structure Device where
  id : String
  powerRating : ℚ
  room : String
  priority : Nat
  alwaysOn : Bool
  deriving DecidableEq, Repr

/-- The message published on the device-control topic (energy_system.py lines
769-774): the JSON object has exactly the keys `device_id` (the spec's
`entity_id`), `command`, `timestamp` and `source`. -/
structure ControlMsg where
  deviceId : String
  command : String
  timestamp : Nat
  source : String
  deriving DecidableEq, Repr

/-- Embedding of `control_device` (energy_system.py lines 766-784): builds and
publishes one control message, unconditionally — the source keeps no record of
previously dispatched commands and applies no suppression.  `control_device`
is the only function in the source that publishes to the
`topics["device_control"]` topic (line 777). -/
def control_device (deviceId : String) (state : Bool) (now : Nat) : ControlMsg :=
  ⟨deviceId, if state then "on" else "off", now, "energy_management"⟩

/-- Embedding of the dispatch of a sequence of `control_device` calls, each
given as (device_id, state, time): every call publishes exactly one message. -/
def dispatch_commands (calls : List (String × Bool × Nat)) : List ControlMsg :=
  calls.map (fun c => control_device c.1 c.2.1 c.2.2)

/-- Modelled from the spec: `get_non_essential_devices` is called at
energy_system.py line 660 but defined nowhere in the repository.  Per the spec
the load-shedding rule selects the non-essential entities, i.e. those not
marked always-on. -/
def get_non_essential_devices (devices : List Device) : List Device :=
  devices.filter (fun d => !d.alwaysOn)

/-- Modelled from the spec: `is_device_on` is called at energy_system.py lines
673 and 698 but defined nowhere in the repository.  Per the spec the rule
considers currently-on entities; modelled as a lookup of the device's current
on/off state. -/
def is_device_on (onState : String → Bool) (id : String) : Bool := onState id

/-- Modelled from the spec: `schedule_device_restoration` is called at
energy_system.py lines 679 and 702 but defined nowhere in the repository.  Per
the spec it schedules a restore Action for the device at now + the given
number of minutes. -/
def schedule_device_restoration (id : String) (minutes : Nat) (now : Nat) :
    String × Nat :=
  (id, now + minutes * 60)

/-- Stable insertion into a list sorted by DESCENDING priority, matching
Python's stable `list.sort(key=..., reverse=True)` at energy_system.py line
663: an element is placed before the first element of strictly smaller or
equal priority coming later in the original order. -/
def insertByPriorityDesc (d : Device) : List Device → List Device
  | [] => [d]
  | x :: xs =>
    if x.priority ≤ d.priority then d :: x :: xs
    else x :: insertByPriorityDesc d xs

/-- Stable sort by descending priority (energy_system.py line 663). -/
def sortByPriorityDesc : List Device → List Device
  | [] => []
  | x :: xs => insertByPriorityDesc x (sortByPriorityDesc xs)

/-- Aggregate load over `current_readings`, given as (device_id, power) pairs:
`sum(reading.get('power', 0) for reading in self.current_readings.values())`
(energy_system.py lines 649-651, also lines 945). -/
def sumPowers (readings : List (String × ℚ)) : ℚ :=
  (readings.map (fun p => p.2)).sum

/-- Embedding of the shedding loop of `optimize_load_balancing`
(energy_system.py lines 668-679): walk the sorted non-essential devices; stop
as soon as the accumulated reduction reaches `load_to_reduce`; turn off each
currently-on device, add its power rating to the reduction, and schedule its
restoration 30 minutes later.  Returns the published control messages and the
scheduled (device, fire-at) restorations. -/
def shed_devices (devices : List Device) (onState : String → Bool)
    (loadToReduce reduced : ℚ) (now : Nat) :
    List ControlMsg × List (String × Nat) :=
  match devices with
  | [] => ([], [])
  | d :: rest =>
    if loadToReduce ≤ reduced then ([], [])
    else if is_device_on onState d.id then
      let tail := shed_devices rest onState loadToReduce (reduced + d.powerRating) now
      (control_device d.id false now :: tail.1,
       schedule_device_restoration d.id 30 now :: tail.2)
    else shed_devices rest onState loadToReduce reduced now

/-- Embedding of `optimize_load_balancing` (energy_system.py lines 646-682):
if the aggregate load strictly exceeds `max_safe_load * 0.8`, sort the
non-essential devices by descending priority and shed until the reduction
reaches `current - max_safe_load * 0.7`.  The float literals 0.8 and 0.7 are
modelled as the exact rationals 4/5 and 7/10. -/
def optimize_load_balancing (readings : List (String × ℚ)) (maxSafeLoad : ℚ)
    (devices : List Device) (onState : String → Bool) (now : Nat) :
    List ControlMsg × List (String × Nat) :=
  let currentTotalLoad := sumPowers readings
  if maxSafeLoad * (4 / 5) < currentTotalLoad then
    shed_devices (sortByPriorityDesc (get_non_essential_devices devices))
      onState (currentTotalLoad - maxSafeLoad * (7 / 10)) 0 now
  else ([], [])

/-- Embedding of the load trigger in `check_optimization_triggers`
(energy_system.py lines 943-948): `optimize_load_balancing` is invoked iff the
total power strictly exceeds the `high_usage_alert` threshold. -/
def check_optimization_triggers (readings : List (String × ℚ))
    (highUsageAlert : ℚ) : Bool :=
  decide (highUsageAlert < sumPowers readings)

/-- Embedding of Python's `str.endswith`, used at energy_system.py lines 582
and 588 to classify devices, stated over the string's character list so that
it evaluates by kernel reduction. -/
def strEndsWith (s suffix : String) : Bool :=
  suffix.data.isSuffixOf s.data

/-- Occupancy sensor data for one room (energy_system.py lines 376-381):
occupancy count, motion flag, temperature, and arrival timestamp. -/
structure OccupancyData where
  occupancyCount : Nat
  motionDetected : Bool
  temperature : ℚ
  timestamp : Nat
  deriving DecidableEq, Repr

/-- Embedding of `is_room_occupied` (energy_system.py lines 929-932), the same
expression the occupancy optimizer computes inline at line 577:
`motion_detected or occupancy_count > 0`, with `get` defaults false and 0. -/
def is_room_occupied (sensors : String → Option OccupancyData) (room : String) :
    Bool :=
  match sensors room with
  | some o => o.motionDetected || decide (0 < o.occupancyCount)
  | none => false

/-- Embedding of `get_devices_in_room` (energy_system.py lines 920-927). -/
def get_devices_in_room (devices : List Device) (room : String) : List Device :=
  devices.filter (fun d => d.room == room)

/-- Embedding of `optimize_based_on_occupancy` (energy_system.py lines
573-604).  For every device of the room: a `_light` device is turned off when
the room is unoccupied and it is not a peak hour; a `_fan` device is switched
by temperature when occupied (> 28 on, < 22 off), or turned off when the room
has been unoccupied for more than 600 seconds.  The function consults no
cooldown state: the source's `last_detection_time` table
(security_system.py line 56) is initialized but never read or written, and no
other per-(rule, entity) timer exists in the repository. -/
def optimize_based_on_occupancy (sensors : String → Option OccupancyData)
    (room : String) (devices : List Device) (peakWindows : List (Nat × Nat))
    (now : Nat) : List ControlMsg :=
  let occupied := is_room_occupied sensors room
  (get_devices_in_room devices room).flatMap (fun d =>
    if strEndsWith d.id "_light" then
      if !occupied && !is_peak_hour peakWindows (now % 86400) then
        [control_device d.id false now]
      else []
    else if strEndsWith d.id "_fan" then
      if occupied then
        let roomTemp := match sensors room with
          | some o => o.temperature
          | none => 25
        if 28 < roomTemp then [control_device d.id true now]
        else if roomTemp < 22 then [control_device d.id false now]
        else []
      else
        let lastActivity := match sensors room with
          | some o => o.timestamp
          | none => now
        if 600 < now - lastActivity then [control_device d.id false now]
        else []
    else [])

/-- The result of running one rule body: `Except.ok` with its produced actions
when the body returns, `Except.error` with the exception message when it
raises. -/
def RuleOutcome : Type := Except String (List ControlMsg)

/-- Embedding of the per-rule `try/except` wrapper: every optimizer in the
source wraps its entire body in `try: ... except Exception as e:
self.logger.error(...)` (e.g. energy_system.py lines 648-682), so a body that
raises contributes no actions and control returns normally. -/
def guard_rule (r : Except String (List ControlMsg)) : List ControlMsg :=
  match r with
  | .ok acts => acts
  | .error _ => []

/-- Embedding of `run_optimization_cycle` (energy_system.py lines 953-966): the
rule bodies are invoked in order, each behind its own `try/except` guard, and
the cycle itself is wrapped in one more `try/except`, so it always returns
normally with the concatenated actions of the non-raising rules. -/
def run_optimization_cycle (rules : List (Except String (List ControlMsg))) :
    Except String (List ControlMsg) :=
  Except.ok (rules.flatMap guard_rule)

end EnergySystem

namespace SecuritySystem

/-- The two security flags of the claim, held by the security system object
(security_system.py lines 50 and 54): `system_armed` and `intrusion_detected`. -/
structure SecurityState where
  systemArmed : Bool
  intrusionDetected : Bool
  deriving DecidableEq, Repr

/-- Embedding of `arm_system` (security_system.py lines 644-648): sets
`system_armed = True` and touches nothing else. -/
def arm_system (s : SecurityState) : SecurityState :=
  ⟨true, s.intrusionDetected⟩

/-- Embedding of `disarm_system` (security_system.py lines 650-655): sets
`system_armed = False` and also clears `intrusion_detected`. -/
def disarm_system (_s : SecurityState) : SecurityState :=
  ⟨false, false⟩

end SecuritySystem

namespace EnergySystem

theorem buildSnapshot_eq_lastArrival_aux (rs : List Reading)
    (snap : String → Option ReadingVal) (acc : Option Reading) (d : String)
    (h : snap d = acc.map readingVal) :
    rs.foldl process_energy_reading snap d =
      (rs.foldl (fun a r => if r.deviceId = d then some r else a) acc).map
        readingVal := by
  induction rs generalizing snap acc with
  | nil => simpa using h
  | cons x rs ih =>
    simp only [List.foldl_cons]
    apply ih
    by_cases hx : x.deviceId = d
    · simp [process_energy_reading, hx]
    · have hd : d ≠ x.deviceId := fun hdx => hx hdx.symm
      simp [process_energy_reading, hx, hd, h]

/-- Claim C1 (counterexample): the State Store snapshot is NOT the one built
from the readings sorted by timestamp.  Two readings for device `d` arrive
out of order: first timestamp 10 with power 5, then timestamp 3 with power 7.
`process_energy_reading` overwrites unconditionally, so the snapshot keeps the
older (timestamp 3) reading, while applying the same readings sorted by
timestamp keeps the newer one — the two snapshots differ, refuting the claim
that out-of-order readings are dropped. -/
theorem claim_C1_counterexample :
    buildSnapshot [⟨"d", 10, 5, 0, 0⟩, ⟨"d", 3, 7, 0, 0⟩] "d" ≠
      buildSnapshot (sortByTimestamp [⟨"d", 10, 5, 0, 0⟩, ⟨"d", 3, 7, 0, 0⟩]) "d" := by
  decide

/-- Claim C1 (amended): `process_energy_reading` updates the per-device
snapshot unconditionally — every incoming reading overwrites the stored value
for its device, whether or not its timestamp is newer — so the resulting
snapshot maps each device to its last reading in ARRIVAL order
(last-arrival-wins), not to the newest reading by timestamp. -/
theorem claim_C1_amended :
    (∀ (rs : List Reading) (d : String),
      buildSnapshot rs d = (lastArrival rs d).map readingVal) ∧
    (∀ (snap : String → Option ReadingVal) (r : Reading),
      process_energy_reading snap r r.deviceId = some (readingVal r)) := by
  constructor
  · intro rs d
    exact buildSnapshot_eq_lastArrival_aux rs emptyReadings none d rfl
  · intro snap r
    simp [process_energy_reading]

/-- Claim C4 (counterexample): for the off-peak window 01:00-05:00 (seconds
3600-18000, a window with `start <= end`), the source's `is_off_peak_hour`
classifies 12:00 (43200 s) as off-peak, because it tests
`start <= t or t <= end` unconditionally, while the claim's convention
(inclusive range when `start <= end`) classifies it as not off-peak. -/
theorem claim_C4_counterexample :
    is_off_peak_hour [(3600, 18000)] 43200 = true ∧
      offPeakSpec (3600, 18000) 43200 = false := by
  decide

/-- Claim C4 (amended): the source applies the midnight-crossing disjunction
`start <= t or t <= end` to every window.  When `start > end` this coincides
with the claim's two-inclusive-sub-ranges convention; but when `start <= end`
the disjunction is identically true, so every time of day is classified as
off-peak (not only `start <= t <= end`). -/
theorem claim_C4_amended (s e t : Nat) :
    (e < s → is_off_peak_hour [(s, e)] t = offPeakSpec (s, e) t) ∧
      (s ≤ e → is_off_peak_hour [(s, e)] t = true) := by
  constructor
  · intro h
    have hse : ¬ s ≤ e := not_le.mpr h
    simp [is_off_peak_hour, offPeakSpec, hse]
  · intro h
    rcases le_total t e with ht | ht
    · simp [is_off_peak_hour, ht]
    · have hst : s ≤ t := le_trans h ht
      simp [is_off_peak_hour, hst]

/-- Claim C4 (witness): the amended theorem applied at concrete inputs — the
wrapped window 22:00-06:00 (79200 > 21600) at 01:00 agrees with the claim's
convention, and the non-wrapped window 01:00-05:00 classifies noon as
off-peak. -/
theorem claim_C4_witness :
    is_off_peak_hour [(79200, 21600)] 3600 = offPeakSpec (79200, 21600) 3600 ∧
      is_off_peak_hour [(3600, 18000)] 43200 = true :=
  ⟨(claim_C4_amended 79200 21600 3600).1 (by decide),
   (claim_C4_amended 3600 18000 43200).2 (by decide)⟩

/-- Claim C6: `is_peak_hour` with the configured peak window 18:00-22:00
(64800-79200 seconds) is inclusive on both boundaries: exactly 18:00:00 is
peak, 17:59:59 is not (and 22:00:00 is still peak). -/
theorem claim_C6_peak_window_inclusive :
    is_peak_hour [(64800, 79200)] 64800 = true ∧
      is_peak_hour [(64800, 79200)] 64799 = false ∧
      is_peak_hour [(64800, 79200)] 79200 = true := by
  decide

/-- Claim C2: with entities A (priority 1, 500 W, on), B (priority 3, 200 W,
on), C (priority 2, 100 W, on) — plus the always-on device D whose 200 W
reading brings the aggregate load to the claimed 1000 W — and threshold
1000 W, `optimize_load_balancing` turns off B then C (descending priority
among the non-essential, currently-on devices) until the reduction reaches
1000 - 1000*0.7 = 300 W, leaves A on, and schedules a restore at
now + 30 minutes (1800 s) for each device turned off. -/
theorem claim_C2_load_shedding_scenario :
    optimize_load_balancing
      [("A", 500), ("B", 200), ("C", 100), ("D", 200)] 1000
      [⟨"A", 500, "living_room", 1, false⟩, ⟨"B", 200, "hall", 3, false⟩,
       ⟨"C", 100, "kitchen", 2, false⟩, ⟨"D", 200, "kitchen", 1, true⟩]
      (fun _ => true) 0 =
    ([⟨"B", "off", 0, "energy_management"⟩, ⟨"C", "off", 0, "energy_management"⟩],
     [("B", 1800), ("C", 1800)]) := by
  norm_num [optimize_load_balancing, sumPowers, get_non_essential_devices,
    sortByPriorityDesc, insertByPriorityDesc, shed_devices, is_device_on,
    control_device, schedule_device_restoration]

/-- Claim C3 (counterexample): two qualifying occupancy events for the same
room only 60 seconds apart (room "hall" unoccupied — count 0, no motion — and
neither time is in the peak window 18:00-22:00) EACH make the occupancy
auto-off rule emit the off command for the room's light: the rule fires twice
within 5 minutes, refuting the claim that the second event is skipped by a
cooldown.  No cooldown state exists in the source: `last_detection_time` is
initialized (security_system.py line 56) and never used. -/
theorem claim_C3_counterexample :
    optimize_based_on_occupancy
        (fun r => if r == "hall" then some (⟨0, false, 25, 0⟩ : OccupancyData) else none)
        "hall" [⟨"hall_light", 60, "hall", 3, false⟩] [(64800, 79200)] 3600 =
      [⟨"hall_light", "off", 3600, "energy_management"⟩] ∧
    optimize_based_on_occupancy
        (fun r => if r == "hall" then some (⟨0, false, 25, 0⟩ : OccupancyData) else none)
        "hall" [⟨"hall_light", 60, "hall", 3, false⟩] [(64800, 79200)] 3660 =
      [⟨"hall_light", "off", 3660, "energy_management"⟩] := by
  constructor <;> decide

/-- Claim C3 (amended): the occupancy auto-off rule has NO cooldown — it
emits the off command on EVERY qualifying event, however close together: for
any sensor state in which the device's room is unoccupied and any time that
is not a peak hour, every `_light` device of the room is commanded off. -/
theorem claim_C3_amended (sensors : String → Option OccupancyData)
    (room : String) (devices : List Device) (peakWindows : List (Nat × Nat))
    (now : Nat) (d : Device)
    (hd : d ∈ get_devices_in_room devices room)
    (hlight : strEndsWith d.id "_light" = true)
    (hocc : is_room_occupied sensors room = false)
    (hpeak : is_peak_hour peakWindows (now % 86400) = false) :
    control_device d.id false now ∈
      optimize_based_on_occupancy sensors room devices peakWindows now := by
  unfold optimize_based_on_occupancy
  refine List.mem_flatMap.mpr ⟨d, hd, ?_⟩
  simp [hlight, hocc, hpeak]

/-- Claim C3 (witness): the amended theorem applied to the concrete
unoccupied room "hall" at 01:02 (3720 s, not peak). -/
theorem claim_C3_witness :
    control_device "hall_light" false 3720 ∈
      optimize_based_on_occupancy
        (fun r => if r == "hall" then some (⟨0, false, 25, 0⟩ : OccupancyData) else none)
        "hall" [⟨"hall_light", 60, "hall", 3, false⟩] [(64800, 79200)] 3720 :=
  claim_C3_amended
    (fun r => if r == "hall" then some (⟨0, false, 25, 0⟩ : OccupancyData) else none)
    "hall" [⟨"hall_light", 60, "hall", 3, false⟩] [(64800, 79200)] 3720
    ⟨"hall_light", 60, "hall", 3, false⟩ (by decide) (by decide) (by decide) (by decide)

/-- Claim C5 (counterexample): both "exceeds threshold" comparisons are
strict, not inclusive.  With threshold 1000 and aggregate load exactly
1000 * 0.8 = 800 W (all three devices on), `optimize_load_balancing` sheds
nothing — the condition `current > max_safe * 0.8` fails at equality — and
with aggregate exactly 1000 W, `check_optimization_triggers` does not invoke
load balancing either (`total > threshold` fails at equality), refuting the
claim that equality triggers. -/
theorem claim_C5_counterexample :
    optimize_load_balancing [("A", 500), ("B", 200), ("C", 100)] 1000
      [⟨"A", 500, "living_room", 1, false⟩, ⟨"B", 200, "hall", 3, false⟩,
       ⟨"C", 100, "kitchen", 2, false⟩]
      (fun _ => true) 0 = ([], []) ∧
    check_optimization_triggers [("A", 500), ("B", 200), ("C", 100), ("D", 200)] 1000 = false := by
  norm_num [optimize_load_balancing, sumPowers, check_optimization_triggers]

/-- Claim C5 (amended): the trigger comparisons are strict (`>`): whenever
the aggregate load is at or below `max_safe_load * 0.8`, `optimize_load_balancing`
does nothing, and whenever it is at or below the `high_usage_alert` threshold,
`check_optimization_triggers` does not invoke load balancing. -/
theorem claim_C5_amended (readings : List (String × ℚ)) (maxSafeLoad threshold : ℚ)
    (devices : List Device) (onState : String → Bool) (now : Nat)
    (h1 : sumPowers readings ≤ maxSafeLoad * (4 / 5))
    (h2 : sumPowers readings ≤ threshold) :
    optimize_load_balancing readings maxSafeLoad devices onState now = ([], []) ∧
      check_optimization_triggers readings threshold = false := by
  constructor
  · simp only [optimize_load_balancing]
    rw [if_neg (not_lt.mpr h1)]
  · unfold check_optimization_triggers
    exact decide_eq_false (not_lt.mpr h2)

/-- Claim C5 (witness): the amended theorem at a 400 W aggregate, exactly
500 * 0.8, with threshold 500. -/
theorem claim_C5_witness :
    optimize_load_balancing [("X", 400)] 500 [] (fun _ => true) 0 = ([], []) ∧
      check_optimization_triggers [("X", 400)] 500 = false :=
  claim_C5_amended [("X", 400)] 500 500 [] (fun _ => true) 0
    (by norm_num [sumPowers]) (by norm_num [sumPowers])

/-- Claim C7 (counterexample): two dispatches with the same idempotency key
(same target "hall_light", same command "off") one second apart — well inside
the claimed 2-second dedup window — produce TWO outbound publishes, not one:
`control_device` publishes unconditionally and keeps no record of previously
seen commands, so the second dispatch is not suppressed. -/
theorem claim_C7_counterexample :
    dispatch_commands [("hall_light", false, 0), ("hall_light", false, 1)] =
      [⟨"hall_light", "off", 0, "energy_management"⟩,
       ⟨"hall_light", "off", 1, "energy_management"⟩] ∧
    (dispatch_commands [("hall_light", false, 0), ("hall_light", false, 1)]).length ≠ 1 := by
  constructor <;> decide

/-- Claim C7 (amended): there is no deduplication: every `control_device`
call publishes exactly one message, so a sequence of dispatches produces
exactly as many outbound publishes as there are dispatches, whatever their
idempotency keys and however close their times. -/
theorem claim_C7_amended (calls : List (String × Bool × Nat)) :
    (dispatch_commands calls).length = calls.length := by
  simp [dispatch_commands]

/-- Claim C8: a rule body that raises is isolated: the optimization cycle
still returns normally (`Except.ok`, no crash), and its output is exactly the
concatenation, in registration order, of the actions of the rules before and
after the failing one — the failing rule contributes nothing and blocks
nothing. -/
theorem claim_C8_rule_failure_isolated
    (pre post : List (Except String (List ControlMsg))) (e : String) :
    run_optimization_cycle (pre ++ Except.error e :: post) =
      Except.ok (pre.flatMap guard_rule ++ post.flatMap guard_rule) := by
  simp [run_optimization_cycle, guard_rule]

/-- Claim C9: every message published on the device-control topic (all of
which are built by `control_device`, the only publisher to that topic) is a
`ControlMsg`, i.e. an object with exactly the fields device id (the spec's
`entity_id`), command, timestamp and source, and its command is either "on"
or "off". -/
theorem claim_C9_control_message_shape (id : String) (state : Bool) (now : Nat) :
    ((control_device id state now).command = "on" ∨
      (control_device id state now).command = "off") ∧
      (control_device id state now).deviceId = id ∧
      (control_device id state now).timestamp = now ∧
      (control_device id state now).source = "energy_management" := by
  cases state
  · exact ⟨Or.inr rfl, rfl, rfl, rfl⟩
  · exact ⟨Or.inl rfl, rfl, rfl, rfl⟩

end EnergySystem

namespace SecuritySystem

/-- Claim C10: for every prior state, `disarm_system` leaves the system
disarmed with the intrusion flag cleared, and `arm_system` arms the system
while leaving the intrusion flag unchanged. -/
theorem claim_C10_arm_disarm_effects (s : SecurityState) :
    (disarm_system s).systemArmed = false ∧
      (disarm_system s).intrusionDetected = false ∧
      (arm_system s).systemArmed = true ∧
      (arm_system s).intrusionDetected = s.intrusionDetected :=
  ⟨rfl, rfl, rfl, rfl⟩

end SecuritySystem
